import Mathlib

/-!
# BizPulse estimation core — verification development

Shallow embedding of the statistical estimation core of BizPulse
(`bizpulse/utils/segmentation.py` and `bizpulse/utils/models.py`) and proofs
about it.

Conventions used throughout:
* A pandas customer DataFrame is embedded as a `List Customer`, one element
  per row, in row order.
* Python / numpy floating-point literals are embedded as the exact rationals
  they denote in the source text (0.7 = 7/10, 0.3 = 3/10, 1.2 = 6/5, ...);
  floating-point rounding is outside the scope of this development.
* The scipy `minimize` call in `fit_zt_nbd` is external library code; the
  fitted parameter pair it returns is taken as a parameter of the embedded
  pipeline, constrained by the optimizer bounds [0.01, 100] where a claim
  needs them.
-/

namespace BizPulse

/-- A row of the aggregated customer table (the core's working entity):
`frequency` (count of transactions, integer), `days_since_visit`,
`total_spend` and `avg_spend` (monetary values).  Only the columns the
estimation core reads are embedded. -/
structure Customer where
  frequency : ℕ
  days_since_visit : ℚ
  total_spend : ℚ
  avg_spend : ℚ
deriving Repr, DecidableEq

/-! ## Segmentation (`segmentation.py`) -/

/-- `SEGMENT_DEFINITIONS` from `segmentation.py` lines 3-8: each tier with its
inclusive `min` and `max` frequency bound, in source (insertion) order.  Note
the source writes `max: 999` for Superuser although its description string
says "13+ visits". -/
def SEGMENT_DEFINITIONS : List (String × ℕ × ℕ) :=
  [("Explorer", 1, 2), ("Casual", 3, 8), ("Regular", 9, 12), ("Superuser", 13, 999)]

/-- `assign_segment` (`segmentation.py` lines 11-16): scan the tier table in
order and return the first tier whose `[min, max]` range contains the
frequency; fall back to `"Explorer"` when no range matches. -/
def assign_segment (frequency : ℕ) : String :=
  match SEGMENT_DEFINITIONS.find?
      (fun rules => decide (rules.2.1 ≤ frequency) && decide (frequency ≤ rules.2.2)) with
  | some rules => rules.1
  | none => "Explorer"

/-- `assign_segments` (`segmentation.py` lines 19-23): copy the table and add a
`segment` column computed row-wise from `frequency`. -/
def assign_segments (customer_df : List Customer) : List (Customer × String) :=
  customer_df.map (fun c => (c, assign_segment c.frequency))

/-! ## Churn scorer (`models.py` lines 187-243) -/

/-- The maximum of a column, as `pandas.Series.max` computes it on a
non-empty numeric column; on an empty column pandas yields NaN, which fails
every `> 0` comparison exactly as the value `0` returned here does. -/
def colMax : List ℚ → ℚ
  | [] => 0
  | x :: xs => xs.foldl max x

/-- The inner `risk_level` classifier of `calculate_churn_probability`
(`models.py` lines 208-214). -/
def riskLevel (p : ℚ) : String :=
  if p ≥ 7/10 then "high"
  else if p ≥ 4/10 then "medium"
  else "low"

/-- One output row of `calculate_churn_probability`: the input customer row
together with the four columns the function adds. -/
structure ChurnRow where
  customer : Customer
  recency_score : ℚ
  frequency_score : ℚ
  p_churn : ℚ
  risk_level : String
deriving Repr, DecidableEq

/-- The row-wise body of `calculate_churn_probability` given the two column
maxima: `recency_score = days_since_visit / max_days` guarded by
`max_days > 0`, `frequency_score = 1 - frequency / max_freq` guarded by
`max_freq > 0`, `p_churn = clip(recency_score * 0.7 + frequency_score * 0.3,
0, 1)`, and the `risk_level` label. -/
def churnRow (max_days max_freq : ℚ) (c : Customer) : ChurnRow :=
  let recency_score := if max_days > 0 then c.days_since_visit / max_days else 0
  let frequency_score := if max_freq > 0 then 1 - (c.frequency : ℚ) / max_freq else 0
  let p_churn := max 0 (min (recency_score * (7/10) + frequency_score * (3/10)) 1)
  { customer := c
    recency_score := recency_score
    frequency_score := frequency_score
    p_churn := p_churn
    risk_level := riskLevel p_churn }

/-- `calculate_churn_probability` (`models.py` lines 187-218): copy the table,
take the column maxima of `days_since_visit` and `frequency`, and add the
`recency_score`, `frequency_score`, `p_churn` and `risk_level` columns. -/
def calculate_churn_probability (customer_df : List Customer) : List ChurnRow :=
  let max_days := colMax (customer_df.map (·.days_since_visit))
  let max_freq := colMax (customer_df.map (fun c => (c.frequency : ℚ)))
  customer_df.map (churnRow max_days max_freq)

/-- The result record of `get_churn_summary` (`models.py` lines 235-243). -/
structure ChurnSummary where
  customer_df : List ChurnRow
  high_risk_count : ℕ
  medium_risk_count : ℕ
  low_risk_count : ℕ
  revenue_at_risk : ℚ
  still_active_pct : ℚ
  high_risk_customers : List ChurnRow
deriving Repr, DecidableEq

/-- `get_churn_summary` (`models.py` lines 221-243): score the table, split it
by risk level, report the three counts, the revenue at risk (80% of the total
spend of high-risk customers) and the still-active fraction (low-risk count
over population, 0 for an empty population). -/
def get_churn_summary (customer_df : List Customer) : ChurnSummary :=
  let df := calculate_churn_probability customer_df
  let high_risk := df.filter (fun r => r.risk_level == "high")
  let medium_risk := df.filter (fun r => r.risk_level == "medium")
  let low_risk := df.filter (fun r => r.risk_level == "low")
  let revenue_at_risk := (high_risk.map (fun r => r.customer.total_spend)).sum * (4/5)
  let still_active_pct :=
    if df.length > 0 then (low_risk.length : ℚ) / (df.length : ℚ) else 0
  { customer_df := df
    high_risk_count := high_risk.length
    medium_risk_count := medium_risk.length
    low_risk_count := low_risk.length
    revenue_at_risk := revenue_at_risk
    still_active_pct := still_active_pct
    high_risk_customers := high_risk }

/-! ## Value model (`fit_gamma_gamma`, `models.py` lines 144-184)

The source also computes a `hidden_gems` table (lines 167-174); no claim in
this development concerns it, so it is not embedded. -/

/-- The CLV column formula of `fit_gamma_gamma` line 160:
`avg_spend * frequency * 1.2` (1.2 is the fixed growth factor). -/
def clvOf (c : Customer) : ℚ :=
  c.avg_spend * (c.frequency : ℚ) * (6/5)

/-- Stable descending sort by a rational key: `pandas.DataFrame.nlargest n`
(default `keep` policy) is `take n` of this ordering.  Ties keep the earlier
row first; no claim depends on the tie policy since tied rows carry equal
keys. -/
def sortDesc (key : α → ℚ) (l : List α) : List α :=
  l.insertionSort (fun a b => key b ≤ key a)

/-- The column mean, as `pandas.Series.mean` computes it on a non-empty
column: sum over length. -/
def colMean (xs : List ℚ) : ℚ := xs.sum / (xs.length : ℚ)

/-- The success payload of `fit_gamma_gamma` (`models.py` lines 176-184):
the repeat-customer rows with their `clv` column, the mean and total CLV, the
top-decile mean CLV and the repeat-customer count. -/
structure GammaGammaSuccess where
  repeat_customers : List (Customer × ℚ)
  avg_clv : ℚ
  total_clv : ℚ
  top_10_pct_clv : ℚ
  n_repeat : ℕ
deriving Repr, DecidableEq

/-- The result of `fit_gamma_gamma`: either the structured insufficient-data
failure of lines 153-157 (`success: False` with a message) or the success
record of lines 176-184 (`success: True`). -/
inductive GammaGammaResult where
  | failure (message : String)
  | success (res : GammaGammaSuccess)
deriving Repr, DecidableEq

/-- `True` exactly on the `success: True` branch of the returned dict. -/
def GammaGammaResult.isSuccess : GammaGammaResult → Prop
  | .failure _ => False
  | .success _ => True

instance : DecidablePred GammaGammaResult.isSuccess := by
  intro r
  cases r <;> simp [GammaGammaResult.isSuccess] <;> infer_instance

/-- The repeat-customer filter of `fit_gamma_gamma` line 151: the rows with
`frequency >= 2`. -/
def repeatCustomers (customer_df : List Customer) : List Customer :=
  customer_df.filter (fun c => 2 ≤ c.frequency)

/-- The `nlargest` size of `fit_gamma_gamma` line 165:
`int(len(repeat_customers) * 0.1) or 1`, i.e. the floor of a tenth of the
repeat-customer count, replaced by 1 when that floor is 0. -/
def topDecileSize (n : ℕ) : ℕ :=
  if Nat.floor ((n : ℚ) * (1/10)) = 0 then 1 else Nat.floor ((n : ℚ) * (1/10))

/-- `fit_gamma_gamma` (`models.py` lines 144-184): filter to repeat customers
(`frequency >= 2`); with fewer than 10 of them return the structured failure;
otherwise add the `clv` column, and report mean CLV, total CLV and the mean
CLV of the `nlargest` top-decile group. -/
def fit_gamma_gamma (customer_df : List Customer) : GammaGammaResult :=
  let repeat_customers := repeatCustomers customer_df
  if repeat_customers.length < 10 then
    .failure "Need at least 10 repeat customers for CLV analysis"
  else
    let withClv := repeat_customers.map (fun c => (c, clvOf c))
    let clvs := withClv.map (·.2)
    let avg_clv := colMean clvs
    let total_clv := clvs.sum
    let top := (sortDesc (·.2) withClv).take (topDecileSize repeat_customers.length)
    let top_10_pct := colMean (top.map (·.2))
    .success
      { repeat_customers := withClv
        avg_clv := avg_clv
        total_clv := total_clv
        top_10_pct_clv := top_10_pct
        n_repeat := repeat_customers.length }

/-! ## Frequency model (`fit_zt_nbd`, `models.py` lines 42-141)

The scipy `minimize` call (lines 65-71) is external library code, so the
fitted pair `(r, alpha)` it returns is a parameter of the embedded pipeline;
its box bounds are `[0.01, 100]` for both coordinates.  The likelihood value
and the heterogeneity banding (lines 102-111) enter no claim and are not
embedded.

The per-count NBD probability (lines 88-92) is
`exp(lgamma(r+x) - lgamma(r) - lgamma(x+1) + r*log(alpha/(alpha+1)) +
x*log(1/(alpha+1)))`.  For an integer shape `r ≥ 1` the gamma-function part
collapses to the binomial coefficient `choose (r+x-1) x`, which makes the
whole pipeline exact rational arithmetic; the embedded pipeline therefore
carries `r : ℕ`.  The derived quantities `p_zero`, `f0` and `market_reached`
(lines 76-83) are additionally embedded over `ℝ` with a real exponent, so
that statements about them cover every fitted `r` in the optimizer box, not
only integer ones. -/

/-- The NBD point probability of `x` visits (`models.py` lines 88-92) for an
integer shape `r`: `choose (r+x-1) x * (alpha/(alpha+1))^r *
(1/(alpha+1))^x`, the exact value of `exp(log_p_x)` in the source. -/
def nbdPmf (r : ℕ) (alpha : ℚ) (x : ℕ) : ℚ :=
  (Nat.choose (r + x - 1) x : ℚ) * (alpha / (alpha + 1)) ^ r * (1 / (alpha + 1)) ^ x

/-- The frequency histogram `customer_df["frequency"].value_counts()`
(`models.py` line 49): each distinct frequency value paired with the number
of rows carrying it.  The source also sorts by index; neither the chi-square
sum nor the bin count depends on that order, so the sort is not embedded. -/
def freqCounts (customer_df : List Customer) : List (ℕ × ℕ) :=
  (customer_df.map (·.frequency)).dedup.map
    (fun x => (x, (customer_df.map (·.frequency)).count x))

/-- The fit-quality banding of `fit_zt_nbd` (`models.py` lines 113-122): the
source divides the chi-square statistic by `max(df, 1)` — not by `df` — and
bands the ratio as good below 2, moderate below 4, else poor. -/
def fitQuality (chi_sq : ℚ) (df : ℤ) : String :=
  if chi_sq / ((max df 1 : ℤ) : ℚ) < 2 then "good"
  else if chi_sq / ((max df 1 : ℤ) : ℚ) < 4 then "moderate"
  else "poor"

/-- Modelled from the spec's words, for comparison with `fitQuality`: fit
quality classified "by chi-square-per-degree-of-freedom (good <2, moderate
<4, else poor)", i.e. the divisor is the degrees of freedom themselves. -/
def fitQualitySpec (chi_sq : ℚ) (df : ℤ) : String :=
  if chi_sq / (df : ℚ) < 2 then "good"
  else if chi_sq / (df : ℚ) < 4 then "moderate"
  else "poor"

/-- The fields of the `fit_zt_nbd` result dict (`models.py` lines 124-141)
that enter a claim. -/
structure ZtNbdResult where
  r : ℕ
  alpha : ℚ
  f0 : ℚ
  n_observed : ℕ
  total_market : ℚ
  market_reached : ℚ
  chi_square : ℚ
  df : ℤ
  fit_quality : String
deriving Repr, DecidableEq

/-- The post-optimization pipeline of `fit_zt_nbd` (`models.py` lines 49 and
73-141) for a fitted integer shape `r` and rational rate `alpha`:
`p_zero = (alpha/(alpha+1))^r`, `f0 = n_observed * p_zero / (1 - p_zero)`,
`total_market = n_observed + f0`, `market_reached = n_observed /
total_market`, the predicted histogram `nbdPmf r alpha x / (1 - p_zero) *
n_observed`, the chi-square statistic against the observed histogram,
`df = (number of bins) - 2`, and the fit-quality band. -/
def fit_zt_nbd (r : ℕ) (alpha : ℚ) (customer_df : List Customer) : ZtNbdResult :=
  let freq_counts := freqCounts customer_df
  let n_observed := customer_df.length
  let p_zero := (alpha / (alpha + 1)) ^ r
  let f0 := (n_observed : ℚ) * p_zero / (1 - p_zero)
  let total_market := (n_observed : ℚ) + f0
  let market_reached := (n_observed : ℚ) / total_market
  let predicted : ℕ → ℚ := fun x => nbdPmf r alpha x / (1 - p_zero) * (n_observed : ℚ)
  let chi_sq :=
    (freq_counts.map (fun b => ((b.2 : ℚ) - predicted b.1) ^ 2 / predicted b.1)).sum
  let df : ℤ := (freq_counts.length : ℤ) - 2
  { r := r
    alpha := alpha
    f0 := f0
    n_observed := n_observed
    total_market := total_market
    market_reached := market_reached
    chi_square := chi_sq
    df := df
    fit_quality := fitQuality chi_sq df }

/-- `P(X=0) = (alpha/(alpha+1))**r` (`models.py` line 76) over `ℝ`, with the
real-exponent power the source's floating-point `**` approximates. -/
noncomputable def pZeroReal (r alpha : ℝ) : ℝ :=
  (alpha / (alpha + 1)) ^ r

/-- `f0 = n_observed * p_zero / (1 - p_zero)` (`models.py` line 79) over `ℝ`. -/
noncomputable def f0Real (n_observed : ℕ) (r alpha : ℝ) : ℝ :=
  (n_observed : ℝ) * pZeroReal r alpha / (1 - pZeroReal r alpha)

/-- `market_reached = n_observed / (n_observed + f0)` (`models.py` lines
82-83) over `ℝ`. -/
noncomputable def marketReachedReal (n_observed : ℕ) (r alpha : ℝ) : ℝ :=
  (n_observed : ℝ) / ((n_observed : ℝ) + f0Real n_observed r alpha)

/-! ## Aliasing-tracking variants

The three table-consuming entry points each begin by copying the table they
were handed (`customer_df.copy()` in `assign_segments` line 21 and
`calculate_churn_probability` line 193; `customer_df[...].copy()` and
`customer_df.copy()` in `fit_gamma_gamma` lines 151 and 168) and then write
columns only into the copy.  The variants below make that explicit: the
caller's table is threaded through and returned next to the result, and every
column write targets the binding introduced by the copy, never the input
binding — mirroring statement by statement which object each Python write
mutates. -/

/-- `assign_segments` with the caller's table threaded through: returns the
result table and the input table as it stands after the call. -/
def assign_segments_tracked (customer_df : List Customer) :
    List (Customer × String) × List Customer :=
  let df := customer_df
  let df := df.map (fun c => (c, assign_segment c.frequency))
  (df, customer_df)

/-- `fit_gamma_gamma` with the caller's table threaded through. -/
def fit_gamma_gamma_tracked (customer_df : List Customer) :
    GammaGammaResult × List Customer :=
  (fit_gamma_gamma customer_df, customer_df)

/-- `calculate_churn_probability` with the caller's table threaded through:
the four column writes of lines 200-216 all target the copy `df` from line
193. -/
def calculate_churn_probability_tracked (customer_df : List Customer) :
    List ChurnRow × List Customer :=
  let df := customer_df
  let max_days := colMax (df.map (·.days_since_visit))
  let max_freq := colMax (df.map (fun c => (c.frequency : ℚ)))
  let df := df.map (churnRow max_days max_freq)
  (df, customer_df)

/-- A uniform positive rescaling of the recency column: every
`days_since_visit` value multiplied by the same constant. -/
def scaleDays (k : ℚ) (c : Customer) : Customer :=
  { c with days_since_visit := k * c.days_since_visit }

/-! ## Concrete tables used to instantiate the theorems -/

/-- A one-customer aggregate: a single client with one visit. -/
def demoOne : List Customer := [⟨1, 0, 0, 0⟩]

/-- A two-customer aggregate with distinct recency and frequency values. -/
def demoTwo : List Customer := [⟨1, 10, 100, 100⟩, ⟨5, 0, 50, 10⟩]

/-- An aggregate of ten repeat customers (each with two visits). -/
def demoTen : List Customer := List.replicate 10 ⟨2, 0, 10, 5⟩

/-- A three-customer aggregate with three distinct frequency values, giving
the frequency model one degree of freedom. -/
def demoThree : List Customer := [⟨1, 0, 0, 0⟩, ⟨2, 0, 0, 0⟩, ⟨3, 0, 0, 0⟩]

/-! ## Helper lemmas -/

lemma le_foldl_max_left (xs : List ℚ) (x : ℚ) : x ≤ xs.foldl max x := by
  induction xs generalizing x with
  | nil => exact le_refl x
  | cons y ys ih => exact le_trans (le_max_left x y) (ih (max x y))

lemma le_foldl_max_mem (xs : List ℚ) (x a : ℚ) (h : a ∈ xs) : a ≤ xs.foldl max x := by
  induction xs generalizing x with
  | nil => cases h
  | cons y ys ih =>
    rcases List.mem_cons.mp h with rfl | hmem
    · exact le_trans (le_max_right x a) (le_foldl_max_left ys (max x a))
    · exact ih (max x y) hmem

/-- Every entry of a column is bounded by its `colMax`. -/
lemma le_colMax (l : List ℚ) (a : ℚ) (h : a ∈ l) : a ≤ colMax l := by
  cases l with
  | nil => cases h
  | cons x xs =>
    rcases List.mem_cons.mp h with rfl | hmem
    · exact le_foldl_max_left xs a
    · exact le_foldl_max_mem xs x a hmem

lemma foldl_max_map_mul (k : ℚ) (hk : 0 ≤ k) (xs : List ℚ) (x : ℚ) :
    (xs.map (fun y => k * y)).foldl max (k * x) = k * xs.foldl max x := by
  induction xs generalizing x with
  | nil => rfl
  | cons y ys ih =>
    simp only [List.map_cons, List.foldl_cons]
    rw [← mul_max_of_nonneg x y hk, ih (max x y)]

/-- A nonnegative scalar distributes over a column maximum. -/
lemma colMax_map_mul (k : ℚ) (hk : 0 ≤ k) (l : List ℚ) :
    colMax (l.map (fun y => k * y)) = k * colMax l := by
  cases l with
  | nil => simp [colMax]
  | cons x xs => simpa [colMax] using foldl_max_map_mul k hk xs x

/-- The inner classifier returns one of exactly three labels. -/
lemma riskLevel_cases (p : ℚ) :
    riskLevel p = "high" ∨ riskLevel p = "medium" ∨ riskLevel p = "low" := by
  unfold riskLevel
  split_ifs <;> simp

/-- Rows whose labels all lie in the three risk classes are counted exactly
once across the three filters. -/
lemma risk_filter_count (l : List ChurnRow)
    (h : ∀ r ∈ l, r.risk_level = "high" ∨ r.risk_level = "medium" ∨ r.risk_level = "low") :
    (l.filter (fun r => r.risk_level == "high")).length
      + (l.filter (fun r => r.risk_level == "medium")).length
      + (l.filter (fun r => r.risk_level == "low")).length = l.length := by
  induction l with
  | nil => simp
  | cons r t ih =>
    have hr := h r (List.mem_cons_self r t)
    have ht := ih (fun x hx => h x (List.mem_cons_of_mem r hx))
    rcases hr with h1 | h1 | h1 <;>
      simp [List.filter_cons, h1, ht] <;> omega

/-- The scoring row map keeps `p_churn` and `risk_level` unchanged under a
uniform positive rescaling of the recency column (with the recency maximum
rescaled accordingly). -/
lemma churnRow_scale (k md mf : ℚ) (hk : 0 < k) (c : Customer) :
    (churnRow (k * md) mf (scaleDays k c)).p_churn = (churnRow md mf c).p_churn
      ∧ (churnRow (k * md) mf (scaleDays k c)).risk_level = (churnRow md mf c).risk_level := by
  have hiff : 0 < k * md ↔ 0 < md := by
    constructor
    · intro h
      by_contra hle
      exact absurd h (not_lt.mpr (mul_nonpos_of_nonneg_of_nonpos hk.le (not_lt.mp hle)))
    · exact fun h => mul_pos hk h
  have hrec :
      (if k * md > 0 then k * c.days_since_visit / (k * md) else 0)
        = (if md > 0 then c.days_since_visit / md else 0) := by
    by_cases hmd : 0 < md
    · rw [if_pos (hiff.mpr hmd), if_pos hmd]
      exact mul_div_mul_left c.days_since_visit md (ne_of_gt hk)
    · rw [if_neg (fun h => hmd (hiff.mp h)), if_neg hmd]
  constructor <;>
    simp only [churnRow, scaleDays, hrec]

/-- `int(n * 0.1)` over exact arithmetic is natural division by 10. -/
lemma floor_tenth (n : ℕ) : Nat.floor ((n : ℚ) * (1/10)) = n / 10 := by
  have h : (n : ℚ) * (1/10) = (n : ℚ) / ((10 : ℕ) : ℚ) := by
    rw [mul_one_div]
    norm_num
  rw [h, Nat.floor_div_nat, Nat.floor_natCast]

/-- The `nlargest` size never exceeds the population it is drawn from. -/
lemma topDecileSize_le (n : ℕ) (h : 1 ≤ n) : topDecileSize n ≤ n := by
  unfold topDecileSize
  rw [floor_tenth]
  by_cases h0 : n / 10 = 0
  · rw [if_pos h0]
    exact h
  · rw [if_neg h0]
    exact Nat.div_le_self n 10

/-- The `k or 1` idiom computes the maximum of `k` and 1 when `k` is a
natural floor. -/
lemma topDecileSize_eq_max (n : ℕ) :
    topDecileSize n = max (Nat.floor ((n : ℚ) * (1/10))) 1 := by
  unfold topDecileSize
  by_cases h0 : Nat.floor ((n : ℚ) * (1/10)) = 0
  · rw [if_pos h0, h0]
    exact (Nat.max_eq_right (Nat.zero_le 1)).symm
  · rw [if_neg h0]
    exact (Nat.max_eq_left (Nat.one_le_iff_ne_zero.mpr h0)).symm

/-- Whenever the degrees of freedom are at least 1, the source's
`chi_sq / max(df, 1)` banding coincides with banding by `chi_sq / df`. -/
lemma fitQuality_eq_spec_of_pos (chi_sq : ℚ) (df : ℤ) (h : 1 ≤ df) :
    fitQuality chi_sq df = fitQualitySpec chi_sq df := by
  unfold fitQuality fitQualitySpec
  rw [max_eq_left h]

/-! ## Claim theorems -/

/-- C1: applied to the empty customer aggregate (zero rows), every core
component — segmentation (`assign_segments`), the frequency model
(`fit_zt_nbd`, for any fitted parameter pair), the value model
(`fit_gamma_gamma`) and the churn scorer (`calculate_churn_probability` and
`get_churn_summary`) — returns a result and raises no exception: each
embedded entry point is total, its guards (`max > 0`, the population-size
guard in `still_active_pct`, the repeat-customer precondition) are those of
the source, and this theorem exhibits the value each returns on the empty
table.  (On the empty table the source's `market_reached` is the IEEE
quotient 0/0, a NaN produced without raising; rational division by zero
returns 0 instead, so no statement is made about that field.) -/
theorem claim_C1_empty_aggregate (r : ℕ) (alpha : ℚ) :
    assign_segments [] = []
      ∧ (fit_zt_nbd r alpha []).n_observed = 0
      ∧ (fit_zt_nbd r alpha []).f0 = 0
      ∧ (fit_zt_nbd r alpha []).chi_square = 0
      ∧ (fit_zt_nbd r alpha []).df = -2
      ∧ (fit_zt_nbd r alpha []).fit_quality = "good"
      ∧ fit_gamma_gamma [] = .failure "Need at least 10 repeat customers for CLV analysis"
      ∧ calculate_churn_probability [] = []
      ∧ get_churn_summary [] =
          { customer_df := [], high_risk_count := 0, medium_risk_count := 0,
            low_risk_count := 0, revenue_at_risk := 0, still_active_pct := 0,
            high_risk_customers := [] } := by
  refine ⟨rfl, rfl, ?_, ?_, rfl, ?_, ?_, rfl, ?_⟩
  · simp [fit_zt_nbd]
  · simp [fit_zt_nbd, freqCounts]
  · simp [fit_zt_nbd, freqCounts, fitQuality]
  · simp [fit_gamma_gamma, repeatCustomers]
  · simp [get_churn_summary, calculate_churn_probability]

/-- C2: the segmentation tiers behave as specified on [1, 999] — Explorer on
[1,2], Casual on [3,8], Regular on [9,12], Superuser from 13 — but the source
caps the Superuser range at 999, so a frequency of 1000 falls through every
range and hits the Explorer fallback.  This contradicts the tier's own
"13+ visits" description string: the claim's "Superuser for every frequency
≥ 13" is the evident intent and the 999 cap a slip. -/
theorem claim_C2_superuser_gap :
    assign_segment 1 = "Explorer" ∧ assign_segment 2 = "Explorer"
      ∧ assign_segment 3 = "Casual" ∧ assign_segment 8 = "Casual"
      ∧ assign_segment 9 = "Regular" ∧ assign_segment 12 = "Regular"
      ∧ assign_segment 13 = "Superuser" ∧ assign_segment 999 = "Superuser"
      ∧ assign_segment 1000 = "Explorer" := by
  decide

/-- C4: the value model returns the structured insufficient-data failure —
`success: False` with a message and no further computation — exactly when
fewer than 10 customers have `frequency ≥ 2`, and a `success: True` result
with 10 or more; no exception is raised on either branch (both are plain
returned values). -/
theorem claim_C4_value_model_precondition (cs : List Customer) :
    ((fit_gamma_gamma cs).isSuccess ↔ 10 ≤ (repeatCustomers cs).length)
      ∧ ((repeatCustomers cs).length < 10 →
          fit_gamma_gamma cs
            = .failure "Need at least 10 repeat customers for CLV analysis") := by
  constructor
  · by_cases h : (repeatCustomers cs).length < 10
    · simp only [fit_gamma_gamma, if_pos h, GammaGammaResult.isSuccess]
      constructor
      · intro hfalse
        exact absurd hfalse id
      · intro h10
        omega
    · simp only [fit_gamma_gamma, if_neg h, GammaGammaResult.isSuccess]
      constructor
      · intro _
        omega
      · intro _
        trivial
  · intro h
    simp only [fit_gamma_gamma, if_pos h]

/-- C4 witness: on the one-customer table there are 0 repeat customers, so
the value model fails with the insufficient-data message. -/
theorem claim_C4_witness :
    ((fit_gamma_gamma demoOne).isSuccess ↔ 10 ≤ (repeatCustomers demoOne).length)
      ∧ ((repeatCustomers demoOne).length < 10 →
          fit_gamma_gamma demoOne
            = .failure "Need at least 10 repeat customers for CLV analysis") :=
  claim_C4_value_model_precondition demoOne

/-- C9: none of the three table-consuming entry points mutates the aggregate
it is given: in the aliasing-tracking embedding — which mirrors, statement by
statement, that each source function copies its input
(`customer_df.copy()`) and writes columns only into the copy — the caller's
table after the call is exactly the table before it, and the result returned
next to it is the fresh structure the untracked function computes. -/
theorem claim_C9_no_input_mutation (cs : List Customer) :
    (assign_segments_tracked cs).2 = cs
      ∧ (fit_gamma_gamma_tracked cs).2 = cs
      ∧ (calculate_churn_probability_tracked cs).2 = cs
      ∧ (assign_segments_tracked cs).1 = assign_segments cs
      ∧ (fit_gamma_gamma_tracked cs).1 = fit_gamma_gamma cs
      ∧ (calculate_churn_probability_tracked cs).1 = calculate_churn_probability cs :=
  ⟨rfl, rfl, rfl, rfl, rfl, rfl⟩

/-- C3: for every aggregate whose recency column is non-negative (as the data
model guarantees), every scored row satisfies the claimed formulas:
`recency_score = days_since_visit / max(days_since_visit)` (0 for every
customer when the maximum is 0), `frequency_score = 1 - frequency /
max(frequency)` (0 when the maximum is 0),
`p_churn = clip(0.7 * recency_score + 0.3 * frequency_score, 0, 1)`, and the
classification is high when `p_churn ≥ 0.70`, medium when
`0.40 ≤ p_churn < 0.70`, and low when `p_churn < 0.40`. -/
theorem claim_C3_churn_formula (cs : List Customer)
    (hd : ∀ c ∈ cs, 0 ≤ c.days_since_visit) :
    ∀ row ∈ calculate_churn_probability cs,
      row.recency_score =
          (if colMax (cs.map (·.days_since_visit)) = 0 then 0
           else row.customer.days_since_visit / colMax (cs.map (·.days_since_visit)))
        ∧ row.frequency_score =
          (if colMax (cs.map (fun c => (c.frequency : ℚ))) = 0 then 0
           else 1 - (row.customer.frequency : ℚ)
              / colMax (cs.map (fun c => (c.frequency : ℚ))))
        ∧ row.p_churn
            = max 0 (min (7/10 * row.recency_score + 3/10 * row.frequency_score) 1)
        ∧ (7/10 ≤ row.p_churn → row.risk_level = "high")
        ∧ (4/10 ≤ row.p_churn ∧ row.p_churn < 7/10 → row.risk_level = "medium")
        ∧ (row.p_churn < 4/10 → row.risk_level = "low") := by
  intro row hrow
  obtain ⟨c, hc, rfl⟩ := List.mem_map.mp hrow
  have hmd0 : 0 ≤ colMax (cs.map (·.days_since_visit)) :=
    le_trans (hd c hc) (le_colMax _ _ (List.mem_map_of_mem _ hc))
  have hmf0 : 0 ≤ colMax (cs.map (fun c => (c.frequency : ℚ))) :=
    le_trans (Nat.cast_nonneg c.frequency) (le_colMax _ _ (List.mem_map_of_mem _ hc))
  set md := colMax (cs.map (·.days_since_visit)) with hmd_def
  set mf := colMax (cs.map (fun c => (c.frequency : ℚ))) with hmf_def
  have h1 : (churnRow md mf c).recency_score
      = (if md = 0 then 0 else c.days_since_visit / md) := by
    simp only [churnRow]
    by_cases h : md = 0
    · rw [if_pos h, if_neg (by rw [h]; exact lt_irrefl 0)]
    · rw [if_neg h, if_pos (lt_of_le_of_ne hmd0 (Ne.symm h))]
  have h2 : (churnRow md mf c).frequency_score
      = (if mf = 0 then 0 else 1 - (c.frequency : ℚ) / mf) := by
    simp only [churnRow]
    by_cases h : mf = 0
    · rw [if_pos h, if_neg (by rw [h]; exact lt_irrefl 0)]
    · rw [if_neg h, if_pos (lt_of_le_of_ne hmf0 (Ne.symm h))]
  have h3 : (churnRow md mf c).p_churn
      = max 0 (min (7/10 * (churnRow md mf c).recency_score
          + 3/10 * (churnRow md mf c).frequency_score) 1) := by
    simp only [churnRow]
    ring_nf
  have hrisk : (churnRow md mf c).risk_level
      = riskLevel ((churnRow md mf c).p_churn) := by
    simp only [churnRow]
  have hcust : (churnRow md mf c).customer = c := by
    simp only [churnRow]
  refine ⟨by rw [h1, hcust], by rw [h2, hcust], h3, ?_, ?_, ?_⟩
  · intro h
    rw [hrisk]
    unfold riskLevel
    rw [if_pos h]
  · rintro ⟨h4, h7⟩
    rw [hrisk]
    unfold riskLevel
    rw [if_neg (not_le.mpr h7), if_pos h4]
  · intro h
    rw [hrisk]
    unfold riskLevel
    rw [if_neg (by linarith), if_neg (by linarith)]

/-- C3 witness: the single-customer table with `days_since_visit = 0`
satisfies the non-negativity hypothesis, and the formulas hold for each of
its scored rows. -/
theorem claim_C3_witness :
    (∀ c ∈ demoOne, 0 ≤ c.days_since_visit)
      ∧ (∀ row ∈ calculate_churn_probability demoOne,
          row.recency_score =
              (if colMax (demoOne.map (·.days_since_visit)) = 0 then 0
               else row.customer.days_since_visit
                  / colMax (demoOne.map (·.days_since_visit)))
            ∧ row.frequency_score =
              (if colMax (demoOne.map (fun c => (c.frequency : ℚ))) = 0 then 0
               else 1 - (row.customer.frequency : ℚ)
                  / colMax (demoOne.map (fun c => (c.frequency : ℚ))))
            ∧ row.p_churn
                = max 0 (min (7/10 * row.recency_score + 3/10 * row.frequency_score) 1)
            ∧ (7/10 ≤ row.p_churn → row.risk_level = "high")
            ∧ (4/10 ≤ row.p_churn ∧ row.p_churn < 7/10 → row.risk_level = "medium")
            ∧ (row.p_churn < 4/10 → row.risk_level = "low")) :=
  ⟨by simp [demoOne], claim_C3_churn_formula demoOne (by simp [demoOne])⟩

/-- C5: the derived latent-demand quantities of the frequency model: whenever
the fitted parameters `r` and `alpha` lie in the optimizer box [0.01, 100]
and the aggregate is non-empty, `f0 ≥ 0` and
`market_reached = n_observed / (n_observed + f0)` lies in (0, 1]. -/
theorem claim_C5_market_reached_bounds (n : ℕ) (r alpha : ℝ)
    (hn : 0 < n) (hr1 : 1/100 ≤ r) (hr2 : r ≤ 100)
    (ha1 : 1/100 ≤ alpha) (ha2 : alpha ≤ 100) :
    0 ≤ f0Real n r alpha
      ∧ 0 < marketReachedReal n r alpha
      ∧ marketReachedReal n r alpha ≤ 1 := by
  have ha0 : (0:ℝ) < alpha := lt_of_lt_of_le (by norm_num) ha1
  have hb0 : (0:ℝ) < alpha / (alpha + 1) := div_pos ha0 (by linarith)
  have hb1 : alpha / (alpha + 1) < 1 := (div_lt_one (by linarith)).mpr (by linarith)
  have hr0 : (0:ℝ) < r := lt_of_lt_of_le (by norm_num) hr1
  have hp0 : 0 < pZeroReal r alpha := Real.rpow_pos_of_pos hb0 r
  have hp1 : pZeroReal r alpha < 1 := Real.rpow_lt_one hb0.le hb1 hr0
  have h1p : 0 < 1 - pZeroReal r alpha := by linarith
  have hf0 : 0 ≤ f0Real n r alpha :=
    div_nonneg (mul_nonneg (Nat.cast_nonneg n) hp0.le) h1p.le
  have hnpos : (0:ℝ) < (n:ℝ) := Nat.cast_pos.mpr hn
  have hden : (0:ℝ) < (n:ℝ) + f0Real n r alpha := by linarith
  refine ⟨hf0, div_pos hnpos hden, (div_le_one hden).mpr (by linarith)⟩

/-- C5 witness: one observed customer and fitted parameters `r = alpha = 1`,
which lie in the optimizer box. -/
theorem claim_C5_witness :
    0 < 1
      ∧ (1:ℝ)/100 ≤ 1 ∧ (1:ℝ) ≤ 100
      ∧ (0 ≤ f0Real 1 1 1
          ∧ 0 < marketReachedReal 1 1 1
          ∧ marketReachedReal 1 1 1 ≤ 1) :=
  ⟨by norm_num, by norm_num, by norm_num,
    claim_C5_market_reached_bounds 1 1 1 (by norm_num) (by norm_num) (by norm_num)
      (by norm_num) (by norm_num)⟩

/-- C8: multiplying every customer's `days_since_visit` by the same positive
constant leaves every customer's `p_churn`, and hence `risk_level`,
unchanged: the recency maximum rescales by the same constant and the
normalized score cancels it. -/
theorem claim_C8_rescale_invariance (cs : List Customer) (k : ℚ) (hk : 0 < k) :
    (calculate_churn_probability (cs.map (scaleDays k))).map
        (fun r => (r.p_churn, r.risk_level))
      = (calculate_churn_probability cs).map (fun r => (r.p_churn, r.risk_level)) := by
  have hdays : (cs.map (scaleDays k)).map (·.days_since_visit)
      = (cs.map (·.days_since_visit)).map (fun y => k * y) := by
    simp [List.map_map, Function.comp, scaleDays]
  have hfreq : (cs.map (scaleDays k)).map (fun c => (c.frequency : ℚ))
      = cs.map (fun c => (c.frequency : ℚ)) := by
    simp [List.map_map, Function.comp, scaleDays]
  simp only [calculate_churn_probability]
  rw [hdays, hfreq, colMax_map_mul k hk.le, List.map_map, List.map_map, List.map_map]
  apply List.map_congr_left
  intro c _
  have h := churnRow_scale k (colMax (cs.map (·.days_since_visit)))
    (colMax (cs.map (fun c => (c.frequency : ℚ)))) hk c
  simp only [Function.comp_apply]
  exact Prod.ext h.1 h.2

/-- C8 witness: rescaling the two-customer table's recency column by 2. -/
theorem claim_C8_witness :
    (0:ℚ) < 2
      ∧ (calculate_churn_probability (demoTwo.map (scaleDays 2))).map
            (fun r => (r.p_churn, r.risk_level))
          = (calculate_churn_probability demoTwo).map
              (fun r => (r.p_churn, r.risk_level)) :=
  ⟨by norm_num, claim_C8_rescale_invariance demoTwo 2 (by norm_num)⟩

/-- C10: for every non-empty aggregate the churn summary's risk counts
partition the population — every customer receives exactly one of the three
risk labels, so the three counts sum to the number of customers — and the
still-active fraction lies in [0, 1]. -/
theorem claim_C10_risk_partition (cs : List Customer) (hne : cs ≠ []) :
    (get_churn_summary cs).high_risk_count + (get_churn_summary cs).medium_risk_count
        + (get_churn_summary cs).low_risk_count = cs.length
      ∧ 0 ≤ (get_churn_summary cs).still_active_pct
      ∧ (get_churn_summary cs).still_active_pct ≤ 1 := by
  have hlen : (calculate_churn_probability cs).length = cs.length :=
    List.length_map _ _
  have hmem : ∀ r ∈ calculate_churn_probability cs,
      r.risk_level = "high" ∨ r.risk_level = "medium" ∨ r.risk_level = "low" := by
    intro r hr
    obtain ⟨c, _, rfl⟩ := List.mem_map.mp hr
    have : (churnRow (colMax (cs.map (·.days_since_visit)))
        (colMax (cs.map (fun c => (c.frequency : ℚ)))) c).risk_level
          = riskLevel ((churnRow (colMax (cs.map (·.days_since_visit)))
              (colMax (cs.map (fun c => (c.frequency : ℚ)))) c).p_churn) := by
      simp only [churnRow]
    rw [this]
    exact riskLevel_cases _
  have hcount := risk_filter_count _ hmem
  have hpos : 0 < (calculate_churn_probability cs).length := by
    rw [hlen]
    exact List.length_pos.mpr hne
  have hposq : (0:ℚ) < ((calculate_churn_probability cs).length : ℚ) := by
    exact_mod_cast hpos
  refine ⟨?_, ?_, ?_⟩
  · simp only [get_churn_summary]
    rw [hcount, hlen]
  · simp only [get_churn_summary]
    rw [if_pos hpos]
    exact div_nonneg (Nat.cast_nonneg _) (Nat.cast_nonneg _)
  · simp only [get_churn_summary]
    rw [if_pos hpos]
    exact (div_le_one hposq).mpr (by exact_mod_cast List.length_filter_le _ _)

/-- C10 witness: the one-customer table is non-empty and its summary counts
partition it. -/
theorem claim_C10_witness :
    demoOne ≠ []
      ∧ ((get_churn_summary demoOne).high_risk_count
            + (get_churn_summary demoOne).medium_risk_count
            + (get_churn_summary demoOne).low_risk_count = demoOne.length
          ∧ 0 ≤ (get_churn_summary demoOne).still_active_pct
          ∧ (get_churn_summary demoOne).still_active_pct ≤ 1) :=
  ⟨by simp [demoOne], claim_C10_risk_partition demoOne (by simp [demoOne])⟩

/-- C6: for every aggregate with at least 10 repeat customers the value model
reports: each repeat customer's CLV equal to `avg_spend * frequency * 1.2`;
the mean CLV (sum over count) and the total CLV of the repeat customers; and
the mean CLV of the top-decile group, which is drawn from the descending CLV
ordering of the repeat customers (a permutation of them, sorted by CLV) and
contains `floor(n_repeat * 0.1)` customers but at least 1 — every customer in
the group having CLV at least that of every customer outside it. -/
theorem claim_C6_clv_outputs (cs : List Customer)
    (h10 : 10 ≤ (repeatCustomers cs).length) :
    ∀ s, fit_gamma_gamma cs = .success s →
      (∀ p ∈ s.repeat_customers, p.2 = p.1.avg_spend * (p.1.frequency : ℚ) * (6/5))
        ∧ s.n_repeat = (repeatCustomers cs).length
        ∧ s.total_clv = ((repeatCustomers cs).map clvOf).sum
        ∧ s.avg_clv
            = ((repeatCustomers cs).map clvOf).sum / ((repeatCustomers cs).length : ℚ)
        ∧ topDecileSize (repeatCustomers cs).length
            = max (Nat.floor (((repeatCustomers cs).length : ℚ) * (1/10))) 1
        ∧ (sortDesc (fun p => p.2)
              ((repeatCustomers cs).map (fun c => (c, clvOf c)))).Perm
            ((repeatCustomers cs).map (fun c => (c, clvOf c)))
        ∧ List.Sorted (fun p q : Customer × ℚ => q.2 ≤ p.2)
            (sortDesc (fun p => p.2) ((repeatCustomers cs).map (fun c => (c, clvOf c))))
        ∧ ((sortDesc (fun p => p.2)
              ((repeatCustomers cs).map (fun c => (c, clvOf c)))).take
                (topDecileSize (repeatCustomers cs).length)).length
            = topDecileSize (repeatCustomers cs).length
        ∧ (∀ p ∈ (sortDesc (fun p => p.2)
              ((repeatCustomers cs).map (fun c => (c, clvOf c)))).take
                (topDecileSize (repeatCustomers cs).length),
            ∀ q ∈ (sortDesc (fun p => p.2)
              ((repeatCustomers cs).map (fun c => (c, clvOf c)))).drop
                (topDecileSize (repeatCustomers cs).length), q.2 ≤ p.2)
        ∧ s.top_10_pct_clv
            = colMean (((sortDesc (fun p => p.2)
                ((repeatCustomers cs).map (fun c => (c, clvOf c)))).take
                  (topDecileSize (repeatCustomers cs).length)).map (fun p => p.2)) := by
  intro s hres
  have hnot : ¬ ((repeatCustomers cs).length < 10) := not_lt.mpr h10
  simp only [fit_gamma_gamma, if_neg hnot, GammaGammaResult.success.injEq] at hres
  subst hres
  haveI htotal : IsTotal (Customer × ℚ) (fun p q => q.2 ≤ p.2) :=
    ⟨fun a b => le_total b.2 a.2⟩
  haveI htrans : IsTrans (Customer × ℚ) (fun p q => q.2 ≤ p.2) :=
    ⟨fun _ _ _ hab hbc => le_trans hbc hab⟩
  have hsorted : List.Sorted (fun p q : Customer × ℚ => q.2 ≤ p.2)
      (sortDesc (fun p => p.2) ((repeatCustomers cs).map (fun c => (c, clvOf c)))) :=
    List.sorted_insertionSort _ _
  have hmap : ((repeatCustomers cs).map (fun c => (c, clvOf c))).map (fun p => p.2)
      = (repeatCustomers cs).map clvOf := by
    rw [List.map_map]
    rfl
  have hlen_sort : (sortDesc (fun p : Customer × ℚ => p.2)
        ((repeatCustomers cs).map (fun c => (c, clvOf c)))).length
      = ((repeatCustomers cs).map (fun c => (c, clvOf c))).length :=
    (List.perm_insertionSort _ _).length_eq
  have hk_le : topDecileSize (repeatCustomers cs).length
      ≤ (sortDesc (fun p : Customer × ℚ => p.2)
          ((repeatCustomers cs).map (fun c => (c, clvOf c)))).length := by
    rw [hlen_sort, List.length_map]
    exact topDecileSize_le _ (le_trans (by norm_num) h10)
  have happ : List.Pairwise (fun p q : Customer × ℚ => q.2 ≤ p.2)
      (((sortDesc (fun p => p.2)
          ((repeatCustomers cs).map (fun c => (c, clvOf c)))).take
            (topDecileSize (repeatCustomers cs).length))
        ++ ((sortDesc (fun p => p.2)
          ((repeatCustomers cs).map (fun c => (c, clvOf c)))).drop
            (topDecileSize (repeatCustomers cs).length))) := by
    rw [List.take_append_drop]
    exact hsorted
  refine ⟨?_, rfl, ?_, ?_, topDecileSize_eq_max _, List.perm_insertionSort _ _,
    hsorted, ?_, ?_, rfl⟩
  · intro p hp
    obtain ⟨c, _, rfl⟩ := List.mem_map.mp hp
    simp [clvOf]
  · show (((repeatCustomers cs).map (fun c => (c, clvOf c))).map (fun p => p.2)).sum
        = ((repeatCustomers cs).map clvOf).sum
    rw [hmap]
  · show colMean (((repeatCustomers cs).map (fun c => (c, clvOf c))).map (fun p => p.2))
        = ((repeatCustomers cs).map clvOf).sum / ((repeatCustomers cs).length : ℚ)
    rw [colMean, hmap, List.length_map]
  · rw [List.length_take]
    exact min_eq_left hk_le
  · intro p hp q hq
    exact (List.pairwise_append.mp happ).2.2 p hp q hq

/-- C6 witness: ten repeat customers, so the value model succeeds and the CLV
outputs satisfy the reported formulas. -/
theorem claim_C6_witness :
    10 ≤ (repeatCustomers demoTen).length
      ∧ (∀ s, fit_gamma_gamma demoTen = .success s →
          (∀ p ∈ s.repeat_customers, p.2 = p.1.avg_spend * (p.1.frequency : ℚ) * (6/5))
            ∧ s.n_repeat = (repeatCustomers demoTen).length
            ∧ s.total_clv = ((repeatCustomers demoTen).map clvOf).sum
            ∧ s.avg_clv
                = ((repeatCustomers demoTen).map clvOf).sum
                    / ((repeatCustomers demoTen).length : ℚ)
            ∧ topDecileSize (repeatCustomers demoTen).length
                = max (Nat.floor (((repeatCustomers demoTen).length : ℚ) * (1/10))) 1
            ∧ (sortDesc (fun p => p.2)
                  ((repeatCustomers demoTen).map (fun c => (c, clvOf c)))).Perm
                ((repeatCustomers demoTen).map (fun c => (c, clvOf c)))
            ∧ List.Sorted (fun p q : Customer × ℚ => q.2 ≤ p.2)
                (sortDesc (fun p => p.2)
                  ((repeatCustomers demoTen).map (fun c => (c, clvOf c))))
            ∧ ((sortDesc (fun p => p.2)
                  ((repeatCustomers demoTen).map (fun c => (c, clvOf c)))).take
                    (topDecileSize (repeatCustomers demoTen).length)).length
                = topDecileSize (repeatCustomers demoTen).length
            ∧ (∀ p ∈ (sortDesc (fun p => p.2)
                  ((repeatCustomers demoTen).map (fun c => (c, clvOf c)))).take
                    (topDecileSize (repeatCustomers demoTen).length),
                ∀ q ∈ (sortDesc (fun p => p.2)
                  ((repeatCustomers demoTen).map (fun c => (c, clvOf c)))).drop
                    (topDecileSize (repeatCustomers demoTen).length), q.2 ≤ p.2)
            ∧ s.top_10_pct_clv
                = colMean (((sortDesc (fun p => p.2)
                    ((repeatCustomers demoTen).map (fun c => (c, clvOf c)))).take
                      (topDecileSize (repeatCustomers demoTen).length)).map
                        (fun p => p.2))) :=
  ⟨by decide, claim_C6_clv_outputs demoTen (by decide)⟩

/-- C7 counterexample: on the one-customer aggregate (a single distinct
frequency value, so `df = 1 - 2 = -1`) with in-bounds fitted parameters
`r = 1`, `alpha = 0.01`, the chi-square statistic is 10000/101 ≈ 99, the
source classifies the fit by `chi_sq / max(df, 1)` as "poor", while the
claimed rule — banding `chi_sq / df` — would yield "good" (the ratio is
negative): the claim's classification rule does not match the code when
`df ≤ 0`. -/
theorem claim_C7_counterexample :
    (fit_zt_nbd 1 (1/100) demoOne).df = -1
      ∧ (fit_zt_nbd 1 (1/100) demoOne).chi_square = 10000/101
      ∧ (fit_zt_nbd 1 (1/100) demoOne).fit_quality = "poor"
      ∧ fitQualitySpec (fit_zt_nbd 1 (1/100) demoOne).chi_square
          (fit_zt_nbd 1 (1/100) demoOne).df = "good"
      ∧ (fit_zt_nbd 1 (1/100) demoOne).fit_quality
          ≠ fitQualitySpec (fit_zt_nbd 1 (1/100) demoOne).chi_square
              (fit_zt_nbd 1 (1/100) demoOne).df := by
  have hfc : freqCounts demoOne = [(1, 1)] := by decide
  have hlen : demoOne.length = 1 := rfl
  have hchi : (fit_zt_nbd 1 (1/100) demoOne).chi_square = 10000/101 := by
    simp only [fit_zt_nbd, hfc, hlen, List.map_cons, List.map_nil, List.sum_cons,
      List.sum_nil, nbdPmf]
    norm_num
  have hdf : (fit_zt_nbd 1 (1/100) demoOne).df = -1 := by
    simp only [fit_zt_nbd, hfc]
    norm_num
  have hq : (fit_zt_nbd 1 (1/100) demoOne).fit_quality
      = fitQuality (fit_zt_nbd 1 (1/100) demoOne).chi_square
          (fit_zt_nbd 1 (1/100) demoOne).df := by
    simp only [fit_zt_nbd]
  refine ⟨hdf, hchi, ?_, ?_, ?_⟩
  · rw [hq, hchi, hdf]
    unfold fitQuality
    norm_num
  · rw [hchi, hdf]
    unfold fitQualitySpec
    norm_num
  · rw [hq, hchi, hdf]
    unfold fitQuality fitQualitySpec
    norm_num
    try decide

/-- C7 as amended: for every non-empty aggregate and fitted parameters, the
frequency model reports `df` equal to the number of distinct observed
frequency values minus 2, and classifies fit quality by the ratio of the
chi-square statistic to `max(df, 1)` — good below 2, moderate below 4, else
poor — which coincides with the claimed chi-square-per-degree-of-freedom rule
whenever `df ≥ 1` (i.e. at least 3 distinct frequency values). -/
theorem claim_C7_fit_quality_amended (cs : List Customer) (hne : cs ≠ [])
    (r : ℕ) (alpha : ℚ) :
    (fit_zt_nbd r alpha cs).df = ((cs.map (·.frequency)).dedup.length : ℤ) - 2
      ∧ (fit_zt_nbd r alpha cs).fit_quality
          = fitQuality (fit_zt_nbd r alpha cs).chi_square (fit_zt_nbd r alpha cs).df
      ∧ (1 ≤ (fit_zt_nbd r alpha cs).df →
          (fit_zt_nbd r alpha cs).fit_quality
            = fitQualitySpec (fit_zt_nbd r alpha cs).chi_square
                (fit_zt_nbd r alpha cs).df) := by
  have hdf : (fit_zt_nbd r alpha cs).df
      = ((cs.map (·.frequency)).dedup.length : ℤ) - 2 := by
    simp [fit_zt_nbd, freqCounts]
  have hq : (fit_zt_nbd r alpha cs).fit_quality
      = fitQuality (fit_zt_nbd r alpha cs).chi_square (fit_zt_nbd r alpha cs).df := by
    simp only [fit_zt_nbd]
  exact ⟨hdf, hq, fun h => by rw [hq, fitQuality_eq_spec_of_pos _ _ h]⟩

/-- C7 witness for the amended claim: a three-customer aggregate with three
distinct frequency values (so `df = 1` and the coincidence clause applies),
with fitted parameters `r = alpha = 1`. -/
theorem claim_C7_amended_witness :
    demoThree ≠ []
      ∧ ((fit_zt_nbd 1 1 demoThree).df
            = ((demoThree.map (·.frequency)).dedup.length : ℤ) - 2
          ∧ (fit_zt_nbd 1 1 demoThree).fit_quality
              = fitQuality (fit_zt_nbd 1 1 demoThree).chi_square
                  (fit_zt_nbd 1 1 demoThree).df
          ∧ (1 ≤ (fit_zt_nbd 1 1 demoThree).df →
              (fit_zt_nbd 1 1 demoThree).fit_quality
                = fitQualitySpec (fit_zt_nbd 1 1 demoThree).chi_square
                    (fit_zt_nbd 1 1 demoThree).df)) :=
  ⟨by simp [demoThree], claim_C7_fit_quality_amended demoThree (by simp [demoThree]) 1 1⟩

end BizPulse
